import Mathlib

/-!
Verification of `playsoundsimple` (src/playsoundsimple/sound.py) against its
natural-language specification.  The Python module is shallowly embedded:
pure helper functions become Lean functions, the streaming producer loop
becomes a fuelled recursive function over an explicit state record, and
fallible Python code (raised exceptions) is modelled with `Except`/`Option`.
OS-level primitives that the module merely calls (`os.path.abspath`,
`mkstemp`) are passed in as function/string parameters, so every theorem
is quantified over their behaviour.
-/

namespace PlaySoundSimple

/-! ## Input resolution (sound.py lines 22-73: `opener` and `getfp`)

`FPType = Union[str, Path, bytes, BytesIO, BufferedReader, BufferedRandom]`.
The constructors below mirror the `isinstance` dispatch arms of `opener` and
`getfp`; `other` stands for any value outside the union (Python does not
enforce the annotation, and both functions end with `raise TypeError`).
For `BytesIO` / `BufferedReader` / `BufferedRandom` the only attributes the
two resolvers consult are `closed` and (for buffered handles) `name`;
`name` is `some s` when the handle's `.name` attribute is a `str`, `none`
when it is something else (e.g. an integer file descriptor). -/

inductive FP where
  /-- a `str` path -/
  | str (s : String)
  /-- a `pathlib` path object (`Path`, `PosixPath`, `PurePath`, ...) rendered to a string -/
  | pathObj (s : String)
  /-- raw `bytes` -/
  | bytes (b : List Nat)
  /-- a `BytesIO` in-memory stream -/
  | bio (closed : Bool)
  /-- a `BufferedReader` or `BufferedRandom` file handle -/
  | buffered (closed : Bool) (name : Option String)
  /-- any value outside the `FPType` union -/
  | other
deriving DecidableEq, Repr

/-- The exceptions the two resolver functions can raise:
`RuntimeError("Closed IO cannot be used.")` and
`TypeError("The fp argument cannot be: ...")`. -/
inductive ResolveError where
  | closedStream
  | badType
deriving DecidableEq, Repr

/-- What a resolver run produces: the recorded name (if any), the
transient-ownership flag it returns, and whether a temporary file was
materialized (`mkstemp` was called and written). -/
structure ResolveOk where
  name : Option String
  is_temp : Bool
  madeTempFile : Bool
deriving DecidableEq, Repr

/-- `opener` (sound.py lines 22-42), the resolver used by `Sound.__init__`.
`abspath` stands for `os.path.abspath`.  `str` and path objects are
canonicalized; `bytes` are wrapped in a fresh `BytesIO` and handed to the
decoder in memory (name `None`, flag `False`); open `BytesIO` is used in
place (name `None`, flag `False`); closed streams raise `RuntimeError`;
buffered handles are used in place with their `.name` when it is a `str`;
anything else raises `TypeError`.  The `SoundFile`/`File` decoder and tag
handles it also returns carry no information the claims need, so only the
`(name, is_temp)` pair plus the temp-file effect is modelled. -/
def opener (abspath : String → String) : FP → Except ResolveError ResolveOk
  | .str s => .ok ⟨some (abspath s), false, false⟩
  | .pathObj s => .ok ⟨some (abspath s), false, false⟩
  | .bytes _ => .ok ⟨none, false, false⟩
  | .bio closed =>
      if closed then .error .closedStream else .ok ⟨none, false, false⟩
  | .buffered closed name =>
      if closed then .error .closedStream else .ok ⟨name, false, false⟩
  | .other => .error .badType

/-- `getfp` (sound.py lines 44-73), the resolver used by `Sound.from_midi`.
`tmp` stands for the fresh path returned by `mkstemp(suffix=filetype)`.
`bytes` and open `BytesIO` are written out to that temporary file
(`is_temp = True`); an OPEN buffered handle is also copied to a temporary
file, but a CLOSED buffered handle takes the `fp.name, False` branch and
is returned as-is; a closed `BytesIO` raises `RuntimeError`; anything
outside the union raises `TypeError`. -/
def getfp (abspath : String → String) (tmp : String) : FP → Except ResolveError ResolveOk
  | .str s => .ok ⟨some (abspath s), false, false⟩
  | .pathObj s => .ok ⟨some (abspath s), false, false⟩
  | .bytes _ => .ok ⟨some tmp, true, true⟩
  | .bio closed =>
      if closed then .error .closedStream else .ok ⟨some tmp, true, true⟩
  | .buffered closed name =>
      if closed then .ok ⟨name, false, false⟩ else .ok ⟨some tmp, true, true⟩
  | .other => .error .badType

/-- `Sound.__init__` line 104: `self.is_temp = self.is_temp or is_temp` —
the transient flag of the handle is the resolver's flag or-ed with the
caller-supplied `is_temp` keyword. -/
def initIsTemp (openerFlag callerFlag : Bool) : Bool :=
  openerFlag || callerFlag

/-! ## Disposal (sound.py lines 133-141 and 210-217: the two `__del__`s)

The class body defines `__del__` twice; by Python semantics the second
definition (lines 210-217) shadows the first, so it is the one that runs
at disposal time.  The handle state records everything both bodies touch. -/

structure Handle where
  sfClosed : Bool
  is_temp : Bool
  name : Option String
  fileDeleted : Bool
  playing : Bool
  paused : Bool
deriving DecidableEq, Repr

/-- The first `__del__` (lines 133-141), shadowed by the second: closes the
decoder if open, then, when `is_temp` and the recorded name is present,
removes the backing file (`os.remove(self.__name)`; deletion failure is
swallowed — the success path is modelled). -/
def delFirst (h : Handle) : Handle :=
  let h1 := if h.sfClosed then h else { h with sfClosed := true }
  if h1.is_temp then
    match h1.name with
    | some _ => { h1 with fileDeleted := true }
    | none => h1
  else h1

/-- The second `__del__` (lines 210-217), the one Python actually runs:
clears both flags; then, when `is_temp` and the name is present, calls
`os.remove()` with NO argument — which immediately raises `TypeError`
before touching the filesystem and is swallowed by the bare `except`.
So neither the decoder handle is closed nor any file removed. -/
def delSecond (h : Handle) : Handle :=
  { h with playing := false, paused := false }

/-- The effective destructor of `Sound`: the second definition shadows the
first. -/
def delEffective : Handle → Handle := delSecond

/-! ## Python `round` (banker's rounding, round-half-to-even)

`Sound.__init__` line 115 computes
`self.__bit_depth = round(bitrate / (samplerate * channels))` and
`set_position` line 258 computes `round(value * samplerate)`.  Python's
built-in `round` rounds to the nearest integer, ties to even. -/

def pyRound (q : ℚ) : ℤ :=
  if q - (⌊q⌋ : ℚ) < 1/2 then ⌊q⌋
  else if 1/2 < q - (⌊q⌋ : ℚ) then ⌊q⌋ + 1
  else if ⌊q⌋ % 2 = 0 then ⌊q⌋ else ⌊q⌋ + 1

/-! ## Open-time derived properties (sound.py lines 107-115) -/

/-- Lines 111-114: `try: bitrate = int(mf.info.bitrate) except: bitrate = 0`.
`none` models every way the tag library can fail to report a bitrate. -/
def initBitrate (mfBitrate : Option ℤ) : ℤ :=
  match mfBitrate with
  | some b => b
  | none => 0

/-- Line 115: `bit_depth = round(bitrate / (samplerate * channels))`. -/
def initBitDepth (mfBitrate : Option ℤ) (samplerate channels : ℕ) : ℤ :=
  pyRound ((initBitrate mfBitrate : ℚ) / ((samplerate : ℚ) * (channels : ℚ)))

/-- Truncation toward zero on rationals (floor for non-negatives, ceiling
for negatives). -/
def truncTowardZero (q : ℚ) : ℤ :=
  if q < 0 then ⌈q⌉ else ⌊q⌋

/-- The spec's wording for the bit-depth property: `bitrate / (sampleRate ×
channels)` truncated toward zero. -/
def specBitDepth (mfBitrate : Option ℤ) (samplerate channels : ℕ) : ℤ :=
  truncTowardZero ((initBitrate mfBitrate : ℚ) / ((samplerate : ℚ) * (channels : ℚ)))

/-! ## The transport state machine (sound.py lines 219-283)

One record holds everything the producer loop and the transport methods
read or write.  `frames` is `sf.frames` (total frame count of the decoder),
`pos` the decoder's read position (moved by `sf.seek` and advanced by
`sf.read`), `cur_frame` the `self.__cur_frame` cursor, `supply` the fixed
chunk size `round(samplerate / 10)`.  The counters record externally
observable effects: `sinkStarted`/`sinkStopped` count `streamer.start()` /
`streamer.stop()` calls, `sends` counts `streamer.send(...)` calls,
`resets` counts executions of the IN-LOOP cursor reset
`self.__cur_frame, mode = 0, mode-1` (line 239, one per completed pass),
and `threads` counts threads spawned by `play`. -/

structure SState where
  frames : ℕ
  supply : ℕ
  pos : ℕ
  cur_frame : ℕ
  playing : Bool
  paused : Bool
  sinkStarted : ℕ
  sinkStopped : ℕ
  sends : ℕ
  resets : ℕ
  threads : ℕ
deriving DecidableEq, Repr

/-- `sf.read(supply, dtype)` returns `min supply (frames - pos)` frames
(`0` once the decoder is exhausted); `len(data)` is that count. -/
def readLen (s : SState) : ℕ :=
  min s.supply (s.frames - s.pos)

/-- The inner `while self.__playing:` loop of `__streaming__` (lines
229-237), run sequentially (no concurrent writer): each iteration
re-checks `playing`, busy-waits in `_check_pause` while `paused` (with no
concurrent `unpause` this never returns, modelled as `none`), reads a
chunk, and either sends it (scaled by volume), advances `cur_frame` and
the decoder position, or breaks on an empty read. -/
def innerLoop (s : SState) : Option SState :=
  if s.playing then
    if s.paused then none
    else if h : readLen s = 0 then some s
    else
      innerLoop { s with
        sends := s.sends + 1
        cur_frame := s.cur_frame + readLen s
        pos := s.pos + readLen s }
  else some s
termination_by s.frames - s.pos
decreasing_by
  simp only [readLen] at h ⊢
  omega

/-- The outer `while (mode != 0) and (self.__playing):` loop of
`__streaming__` (lines 228-239).  `mode` is a Python `int`; for negative
`mode` the loop never exits on its own (the spec's "loop forever"
sentinel), so the recursion carries fuel and returns `none` when the fuel
runs out with the loop still live.  The loop body runs the inner loop,
then executes `self.sf.seek(0)` and `self.__cur_frame, mode = 0, mode-1`
(the in-loop reset, counted in `resets`). -/
def outerLoop (fuel : ℕ) (mode : ℤ) (s : SState) : Option SState :=
  match fuel with
  | 0 => if mode ≠ 0 ∧ s.playing then none else some s
  | f + 1 =>
      if mode ≠ 0 ∧ s.playing then
        (innerLoop s).bind fun s1 =>
          outerLoop f (mode - 1)
            { s1 with pos := 0, cur_frame := 0, resets := s1.resets + 1 }
      else some s

/-- `Sound.__streaming__` (lines 225-244): `streamer.start()`;
`sf.seek(cur_frame)`; the outer loop; then `sf.seek(0)`,
`cur_frame = 0`, `streamer.stop()`, `playing = False`, `paused = False`. -/
def streaming (fuel : ℕ) (mode : ℤ) (s : SState) : Option SState :=
  let s0 : SState := { s with sinkStarted := s.sinkStarted + 1, pos := s.cur_frame }
  (outerLoop fuel mode s0).map fun s1 =>
    { s1 with
      pos := 0
      cur_frame := 0
      sinkStopped := s1.sinkStopped + 1
      playing := false
      paused := false }

/-- `Sound.play` (lines 269-273) with the spawned thread run to
completion: when not already playing, set `playing = True`, spawn the
producer thread (counted in `threads`) and run `__streaming__(mode)` on
it; otherwise do nothing. -/
def play (fuel : ℕ) (mode : ℤ) (s : SState) : Option SState :=
  if s.playing then some s
  else streaming fuel mode { s with playing := true, threads := s.threads + 1 }

/-! ## Flag-level interleaving of the transport operations

For the `paused ⇒ playing` invariant the relevant granularity is the
individual writes to the two flags; `transStep` collects every site in the
source that writes them.  `streamExit` is the tail of `__streaming__`
(lines 240-244), which can interleave at any point relative to the other
transport calls. -/

inductive TOp where
  /-- `Sound.play(mode)` (lines 269-273): flag effect only — sets
  `playing` when not playing (the spawned loop's exit is `streamExit`) -/
  | play (mode : ℤ)
  /-- `Sound.pause` (lines 261-263) -/
  | pause
  /-- `Sound.unpause` (lines 265-267) -/
  | unpause
  /-- `Sound.stop` (lines 275-279) -/
  | stop
  /-- the exit of `__streaming__` (lines 240-244) -/
  | streamExit
deriving DecidableEq, Repr

/-- The write each transport operation performs on the shared state. -/
def transStep (s : SState) : TOp → SState
  | .play _ =>
      if s.playing then s else { s with playing := true, threads := s.threads + 1 }
  | .pause =>
      if ¬s.paused ∧ s.playing then { s with paused := true } else s
  | .unpause =>
      if s.paused ∧ s.playing then { s with paused := false } else s
  | .stop =>
      if s.playing then { s with playing := false, paused := false } else s
  | .streamExit =>
      { s with
        pos := 0
        cur_frame := 0
        sinkStopped := s.sinkStopped + 1
        playing := false
        paused := false }

/-- A fresh `Sound` after `__init__` (lines 123-128): cursor 0, not
playing, not paused, no effects yet. -/
def mkInit (frames supply : ℕ) : SState :=
  ⟨frames, supply, 0, 0, false, false, 0, 0, 0, 0, 0⟩

/-- The §3 invariant as a boolean predicate: `paused ⇒ playing`. -/
def pausedImpPlaying (s : SState) : Bool :=
  !s.paused || s.playing

/-! ## Position getter/setter (sound.py lines 253-259)

Python floats are modelled by exact rationals: `duration` (line 110) is
`frames / samplerate`, `set_position`'s argument is a rational, and the
float `round` is `pyRound`.  `get_position` performs
`cur_frame / max_frame` with no guard, which raises `ZeroDivisionError`
when `max_frame = 0`; fallible code returns `Except`. -/

structure PosState where
  samplerate : ℕ
  frames : ℕ
  cur_frame : ℤ
  seekPos : ℤ
deriving DecidableEq, Repr

/-- Line 110: `self.__duration = self.__max_frame / self.__samplerate`. -/
def duration (s : PosState) : ℚ :=
  (s.frames : ℚ) / (s.samplerate : ℚ)

inductive PyArithError where
  | zeroDivision
deriving DecidableEq, Repr

/-- `Sound.get_position` (lines 253-254):
`return self.__duration * (self.__cur_frame / self.__max_frame)`.
The division `cur_frame / max_frame` is int/int true division, which
raises `ZeroDivisionError` whenever `max_frame == 0`. -/
def get_position (s : PosState) : Except PyArithError ℚ :=
  if s.frames = 0 then .error .zeroDivision
  else .ok (duration s * ((s.cur_frame : ℚ) / (s.frames : ℚ)))

/-- `Sound.set_position` (lines 256-259): when `0.0 <= value <= duration`,
set `cur_frame = round(value * samplerate)` and `sf.seek(cur_frame)`;
otherwise do nothing.  The returned boolean records whether the guarded
branch (the seek) was taken. -/
def set_position (s : PosState) (value : ℚ) : PosState × Bool :=
  if 0 ≤ value ∧ value ≤ duration s then
    let nf := pyRound (value * (s.samplerate : ℚ))
    ({ s with cur_frame := nf, seekPos := nf }, true)
  else (s, false)

/-! ## The MIDI bridge (sound.py lines 172-190 and 85-87)

`Sound.from_midi` first probes `fluidsynth.is_exists_fluidsynth()`
(availability, `env.fsExists`), then resolves the input with
`getfp(fp, ".midi")`, then checks `is_midi_file(path)` — the first four
bytes of the resolved file must be `b"MThd"` — then renders with
`fluidsynth.midi2wave` (success `env.renderOk`).  `magic` is the first
four bytes of the input's content; `getfp` copies stream contents
verbatim, so the bytes at the resolved path are the input's own.
`synthInvoked` records whether `midi2wave` was called. -/

/-- `b"MThd"` as byte values. -/
def mthdMagic : List ℕ := [77, 84, 104, 100]

/-- `is_midi_file` (lines 85-87): the first four bytes of the file equal
`b"MThd"`. -/
def is_midi_file (magic : List ℕ) : Bool :=
  magic = mthdMagic

structure MidiEnv where
  fsExists : Bool
  renderOk : Bool
deriving DecidableEq, Repr

inductive MidiError where
  /-- a `RuntimeError`/`TypeError` escaping from `getfp` -/
  | resolve (e : ResolveError)
  /-- `FileTypeError(fp)` -/
  | fileType
  /-- `FluidSynthNotFoundError()` -/
  | fsNotFound
  /-- `FluidSynthRuntimeError()` -/
  | fsRuntime
deriving DecidableEq, Repr

/-- Outcome of a `from_midi` call: the result (on success, the `is_temp`
flag of the `Sound` constructed from the rendered wave file), whether the
synthesizer was invoked, and whether the intermediate temporary MIDI file
was deleted. -/
structure MidiOutcome where
  result : Except MidiError Bool
  synthInvoked : Bool
  deletedTempMidi : Bool
deriving Repr

/-- `Sound.from_midi` (lines 172-190).  `tmpMidi` is the `mkstemp(".midi")`
path `getfp` may create; the `mkstemp(".wav")` output path needs no name
here.  On a successful render the intermediate MIDI temp file is removed
when `getfp` marked it transient, and the resulting `Sound` is built with
`is_temp=True`. -/
def from_midi (abspath : String → String) (tmpMidi : String)
    (env : MidiEnv) (fp : FP) (magic : List ℕ) : MidiOutcome :=
  if env.fsExists then
    match getfp abspath tmpMidi fp with
    | .error e => ⟨.error (.resolve e), false, false⟩
    | .ok r =>
        if is_midi_file magic then
          if env.renderOk then ⟨.ok true, true, r.is_temp⟩
          else ⟨.error .fsRuntime, true, false⟩
        else ⟨.error .fileType, false, false⟩
  else ⟨.error .fsNotFound, false, false⟩

/-! ## Helper lemmas -/

/-- `pyRound` returns an integer within 1/2 of its argument. -/
theorem pyRound_close (q : ℚ) : |(pyRound q : ℚ) - q| ≤ 1/2 := by
  have h0 : (⌊q⌋ : ℚ) ≤ q := Int.floor_le q
  have h1 : q < (⌊q⌋ : ℚ) + 1 := Int.lt_floor_add_one q
  unfold pyRound
  split
  · rw [abs_le]
    constructor <;> linarith
  · rename_i hlt
    push_neg at hlt
    split
    · rw [abs_le]
      push_cast
      constructor <;> linarith
    · rename_i hgt
      push_neg at hgt
      have heq : q - (⌊q⌋ : ℚ) = 1/2 := le_antisymm hgt hlt
      split <;> (rw [abs_le]; push_cast; constructor <;> linarith)

/-- The outer loop with `mode = 0` exits immediately, whatever the fuel. -/
theorem outerLoop_zero (fuel : ℕ) (s : SState) : outerLoop fuel 0 s = some s := by
  cases fuel <;> simp [outerLoop]

/-- Every flag-writing site in the source preserves `paused ⇒ playing`. -/
theorem transStep_preserves (s : SState) (op : TOp)
    (h : pausedImpPlaying s = true) : pausedImpPlaying (transStep s op) = true := by
  cases op <;> simp only [transStep, pausedImpPlaying] at h ⊢ <;>
    (try split_ifs) <;> simp_all

/-- Running the inner read loop with `playing` set, `paused` clear and a
positive chunk size reads the decoder to exhaustion: it terminates with
the decoder position at `frames`, leaves every flag and counter other
than `sends`, `cur_frame` and `pos` untouched, and advances the cursor by
exactly the frames read. -/
theorem innerLoop_spec : ∀ (n : ℕ) (s : SState), s.frames - s.pos = n →
    s.playing = true → s.paused = false → 1 ≤ s.supply → s.pos ≤ s.frames →
    ∃ t : SState, innerLoop s = some t ∧ t.pos = s.frames
      ∧ t.cur_frame = s.cur_frame + (s.frames - s.pos)
      ∧ t.playing = true ∧ t.paused = false
      ∧ t.frames = s.frames ∧ t.supply = s.supply
      ∧ t.resets = s.resets ∧ t.sinkStarted = s.sinkStarted
      ∧ t.sinkStopped = s.sinkStopped ∧ t.threads = s.threads := by
  intro n
  induction n using Nat.strong_induction_on with
  | _ n ih =>
    intro s hn hp hq hsup hpos
    rw [innerLoop, if_pos hp, if_neg (by simp [hq] : ¬s.paused = true)]
    by_cases h0 : readLen s = 0
    · rw [dif_pos h0]
      have heq : s.pos = s.frames := by
        simp only [readLen] at h0
        omega
      exact ⟨s, rfl, heq, by omega, hp, hq, rfl, rfl, rfl, rfl, rfl, rfl⟩
    · rw [dif_neg h0]
      have hlen : 1 ≤ readLen s ∧ readLen s ≤ s.frames - s.pos := by
        simp only [readLen] at h0 ⊢
        omega
      obtain ⟨t, ht, hto, htc, htp, htq, htf, hts, htr, hta, htb, htt⟩ :=
        ih (s.frames - (s.pos + readLen s)) (by omega)
          { s with
            sends := s.sends + 1
            cur_frame := s.cur_frame + readLen s
            pos := s.pos + readLen s }
          rfl hp hq hsup (by show s.pos + readLen s ≤ s.frames; omega)
      have hto' : t.pos = s.frames := hto
      have htc' : t.cur_frame =
          s.cur_frame + readLen s + (s.frames - (s.pos + readLen s)) := htc
      exact ⟨t, ht, hto', by omega, htp, htq, htf, hts, htr, hta, htb, htt⟩

/-- Running the outer loop with a positive loop count `k`, enough fuel,
`playing` set and `paused` clear performs exactly `k` passes: each pass
reads the decoder to exhaustion and then executes the in-loop reset, so
the reset counter grows by exactly `k` and the loop leaves the cursor and
the decoder position at 0 with `playing` still set. -/
theorem outerLoop_spec : ∀ (k : ℕ) (fuel : ℕ) (s : SState), 1 ≤ k → k ≤ fuel →
    s.playing = true → s.paused = false → 1 ≤ s.supply → s.pos ≤ s.frames →
    ∃ t : SState, outerLoop fuel (k : ℤ) s = some t
      ∧ t.resets = s.resets + k
      ∧ t.playing = true ∧ t.paused = false ∧ t.pos = 0 ∧ t.cur_frame = 0
      ∧ t.frames = s.frames ∧ t.supply = s.supply
      ∧ t.sinkStarted = s.sinkStarted ∧ t.sinkStopped = s.sinkStopped
      ∧ t.threads = s.threads := by
  intro k
  induction k with
  | zero => omega
  | succ k ih =>
    intro fuel s hk hfuel hp hq hsup hpos
    obtain ⟨f, rfl⟩ : ∃ f, fuel = f + 1 := ⟨fuel - 1, by omega⟩
    have hcond : ((k + 1 : ℕ) : ℤ) ≠ 0 ∧ s.playing = true := by
      constructor
      · exact_mod_cast Nat.succ_ne_zero k
      · exact hp
    obtain ⟨t1, ht1, hto, htc, htp, htq, htf, hts, htr, hta, htb, htt⟩ :=
      innerLoop_spec (s.frames - s.pos) s rfl hp hq hsup hpos
    have hmode : ((k + 1 : ℕ) : ℤ) - 1 = (k : ℤ) := by push_cast; ring
    rw [outerLoop, if_pos hcond, ht1]
    simp only [Option.some_bind, hmode]
    rcases Nat.eq_zero_or_pos k with hk0 | hk1
    · subst hk0
      rw [Int.natCast_zero, outerLoop_zero]
      exact ⟨_, rfl, by simp [htr], htp, htq, rfl, rfl, by simp [htf],
        by simp [hts], by simp [hta], by simp [htb], by simp [htt]⟩
    · obtain ⟨t, ht, h1, h2, h3, h4, h5, h6, h7, h8, h9, h10⟩ :=
        ih f { t1 with pos := 0, cur_frame := 0, resets := t1.resets + 1 }
          hk1 (by omega) htp htq (by simp [hts]; omega) (by simp)
      refine ⟨t, ht, ?_, h2, h3, h4, h5, ?_, ?_, ?_, ?_, ?_⟩
      · have : t.resets = t1.resets + 1 + k := h1
        omega
      · have : t.frames = t1.frames := h6
        omega
      · have : t.supply = t1.supply := h7
        omega
      · have : t.sinkStarted = t1.sinkStarted := h8
        omega
      · have : t.sinkStopped = t1.sinkStopped := h9
        omega
      · have : t.threads = t1.threads := h10
        omega

/-! ## Claim theorems -/

/-- C2 (code bug): disposing a transient `Sound` with an open decoder and a
recorded name must close the decoder and delete the backing file, but the
effective destructor (the SECOND `__del__`, which shadows the first) leaves
the decoder open and the file in place — its `os.remove()` call takes no
argument, raises `TypeError` and is swallowed.  The first (shadowed)
`__del__` body would have done both. -/
theorem c2_effective_del_leaves_resources :
    (delEffective ⟨false, true, some "a.wav", false, false, false⟩).sfClosed = false
  ∧ (delEffective ⟨false, true, some "a.wav", false, false, false⟩).fileDeleted = false
  ∧ (delFirst ⟨false, true, some "a.wav", false, false, false⟩).sfClosed = true
  ∧ (delFirst ⟨false, true, some "a.wav", false, false, false⟩).fileDeleted = true :=
  ⟨rfl, rfl, rfl, rfl⟩

/-- C5 counterexample: a raw-bytes input to the `Sound` open path is NOT
materialized to a temporary file and is NOT marked transient — `opener`
wraps the bytes in an in-memory `BytesIO`, records no name, creates no
temp file, and returns `is_temp = False`. -/
theorem c5_bytes_not_materialized :
    opener (fun s => s) (FP.bytes [82, 73, 70, 70]) =
      .ok ⟨none, false, false⟩ := rfl

/-- C5 (amended): the `Sound` open path never materializes raw bytes or
in-memory streams: they are decoded in memory with no recorded name and
`is_temp = False` (a handle becomes transient only if the caller passes
`is_temp=True`, per line 104); textual and path inputs are canonicalized
to absolute form and are likewise not transient. -/
theorem c5_open_resolution (abspath : String → String) (b : List ℕ) (s : String) :
    opener abspath (.bytes b) = .ok ⟨none, false, false⟩
  ∧ opener abspath (.bio false) = .ok ⟨none, false, false⟩
  ∧ opener abspath (.str s) = .ok ⟨some (abspath s), false, false⟩
  ∧ opener abspath (.pathObj s) = .ok ⟨some (abspath s), false, false⟩
  ∧ initIsTemp false true = true
  ∧ initIsTemp false false = false :=
  ⟨rfl, rfl, rfl, rfl, rfl, rfl⟩

/-- C6 counterexample: a CLOSED `BufferedReader` handed to `getfp` does not
fail at all — the resolver returns the handle's recorded name with
`is_temp = False` (sound.py lines 62-64). -/
theorem c6_closed_buffered_getfp_succeeds :
    getfp (fun s => s) "t.midi" (FP.buffered true (some "song.mid")) =
      .ok ⟨some "song.mid", false, false⟩ := rfl

/-- C6 (amended): unsupported handle types always fail (`TypeError`) in
both resolvers, and a closed `BytesIO` always fails (`RuntimeError`); a
closed `BufferedReader`/`BufferedRandom` fails in `opener` (the `Sound`
open path) but is ACCEPTED by `getfp` (the MIDI path), which returns its
recorded name with `is_temp = False`. -/
theorem c6_resolution_errors (abspath : String → String) (tmp : String)
    (name : Option String) :
    opener abspath (.bio true) = .error .closedStream
  ∧ opener abspath (.buffered true name) = .error .closedStream
  ∧ opener abspath .other = .error .badType
  ∧ getfp abspath tmp (.bio true) = .error .closedStream
  ∧ getfp abspath tmp .other = .error .badType
  ∧ getfp abspath tmp (.buffered true name) = .ok ⟨name, false, false⟩ :=
  ⟨rfl, rfl, rfl, rfl, rfl, rfl⟩

/-- C7: starting from a fresh `Sound`, after any sequence of the transport
operations `play`, `pause`, `unpause`, `stop` and producer-loop exit, the
`paused` flag is never set while `playing` is clear: `paused ⇒ playing`
holds in every reachable state. -/
theorem c7_paused_implies_playing (frames supply : ℕ) (ops : List TOp) :
    pausedImpPlaying (ops.foldl transStep (mkInit frames supply)) = true := by
  suffices h : ∀ s : SState, pausedImpPlaying s = true →
      pausedImpPlaying (ops.foldl transStep s) = true from h _ rfl
  induction ops with
  | nil => exact fun s hs => hs
  | cons op rest ih =>
      exact fun s hs => ih (transStep s op) (transStep_preserves s op hs)

/-- C10: on a `Sound` whose decoder reports `frames = 0` (otherwise opened
successfully), `get_position` always raises `ZeroDivisionError` — it
divides the cursor by the total frame count with no guard — even though
the cursor holds the valid value 0. -/
theorem c10_get_position_zero_frames (s : PosState)
    (hf : s.frames = 0) (hc : s.cur_frame = 0) :
    get_position s = .error .zeroDivision := by
  simp [get_position, hf]

/-- Witness for C10 at a concrete state (samplerate 44100, zero frames,
cursor 0). -/
theorem c10_get_position_zero_frames_witness :
    get_position ⟨44100, 0, 0, 0⟩ = .error .zeroDivision :=
  c10_get_position_zero_frames ⟨44100, 0, 0, 0⟩ rfl rfl

/-- C4: `set_position value` takes the guarded branch (and performs the
seek) exactly when `0 ≤ value ≤ duration`; on acceptance the cursor and
the decoder position become `round(value * samplerate)` (Python's
round-half-to-even); on rejection the state is unchanged;
`duration + 1/1000` is always rejected with the cursor unchanged, and `0`
and `duration` are accepted boundary values. -/
theorem c4_set_position_range (s : PosState) (v : ℚ) :
    ((set_position s v).2 = true ↔ 0 ≤ v ∧ v ≤ duration s)
  ∧ (0 ≤ v ∧ v ≤ duration s →
      (set_position s v).1.cur_frame = pyRound (v * (s.samplerate : ℚ))
      ∧ (set_position s v).1.seekPos = pyRound (v * (s.samplerate : ℚ)))
  ∧ (¬(0 ≤ v ∧ v ≤ duration s) → (set_position s v).1 = s)
  ∧ (set_position s (duration s + 1/1000)).1 = s
  ∧ (set_position s (duration s + 1/1000)).2 = false
  ∧ (set_position s 0).2 = true
  ∧ (set_position s (duration s)).2 = true := by
  have hd : 0 ≤ duration s := div_nonneg (Nat.cast_nonneg _) (Nat.cast_nonneg _)
  have hrej : ¬(0 ≤ duration s + 1/1000 ∧ duration s + 1/1000 ≤ duration s) := by
    rintro ⟨-, hle⟩
    linarith
  refine ⟨?_, ?_, ?_, ?_, ?_, ?_, ?_⟩
  · by_cases h : 0 ≤ v ∧ v ≤ duration s <;> simp [set_position, h]
  · intro h
    simp [set_position, h]
  · intro h
    simp [set_position, h]
  · unfold set_position
    rw [if_neg hrej]
  · unfold set_position
    rw [if_neg hrej]
  · simp [set_position, hd]
  · simp [set_position, hd]

/-- Witness for C4: with samplerate 10 and 25 frames (duration 5/2),
`set_position 1` is accepted and sets the cursor to `round(10) = 10`, and
`set_position 3` (beyond the duration) is rejected and leaves the state
unchanged. -/
theorem c4_set_position_range_witness :
    (set_position ⟨10, 25, 0, 0⟩ 1).1.cur_frame = 10
  ∧ (set_position ⟨10, 25, 0, 0⟩ 3).1 = ⟨10, 25, 0, 0⟩ := by
  have h1 := (c4_set_position_range ⟨10, 25, 0, 0⟩ 1).2.1
    ⟨by norm_num, by norm_num [duration]⟩
  have h3 := (c4_set_position_range ⟨10, 25, 0, 0⟩ 3).2.2.1
    (by norm_num [duration])
  refine ⟨?_, h3⟩
  rw [h1.1]
  norm_num [pyRound]

/-- C8: with the synthesizer available and a resolvable input, any input
whose first four bytes are not `b"MThd"` makes `from_midi` fail with
`FileTypeError` without ever invoking the synthesizer; and in every run
whatsoever, the synthesizer is invoked only after the magic check has
passed. -/
theorem c8_magic_checked_before_synth (abspath : String → String)
    (tmpMidi : String) (env : MidiEnv) (fp : FP) (magic : List ℕ)
    (hfs : env.fsExists = true)
    (hres : (getfp abspath tmpMidi fp).isOk = true) :
    (magic ≠ mthdMagic →
      (from_midi abspath tmpMidi env fp magic).result = .error .fileType
      ∧ (from_midi abspath tmpMidi env fp magic).synthInvoked = false)
  ∧ ((from_midi abspath tmpMidi env fp magic).synthInvoked = true →
      magic = mthdMagic) := by
  cases hg : getfp abspath tmpMidi fp with
  | error e => rw [hg] at hres; simp [Except.isOk, Except.toBool] at hres
  | ok r =>
      constructor
      · intro hm
        constructor <;> simp [from_midi, hfs, hg, is_midi_file, hm]
      · intro hs
        by_contra hm
        simp [from_midi, hfs, hg, is_midi_file, hm] at hs

/-- Witness for C8: fluidsynth present, render would succeed, raw-bytes
input, magic `RIFF` (not `MThd`): `from_midi` fails with `FileTypeError`
and the synthesizer is not invoked. -/
theorem c8_magic_checked_before_synth_witness :
    (from_midi (fun s => s) "t.midi" ⟨true, true⟩ (FP.bytes [82, 73, 70, 70])
      [82, 73, 70, 70]).result = .error .fileType
  ∧ (from_midi (fun s => s) "t.midi" ⟨true, true⟩ (FP.bytes [82, 73, 70, 70])
      [82, 73, 70, 70]).synthInvoked = false := by
  exact (c8_magic_checked_before_synth (fun s => s) "t.midi" ⟨true, true⟩
    (FP.bytes [82, 73, 70, 70]) [82, 73, 70, 70] rfl rfl).1 (by decide)

/-- C9 counterexample: at tag bitrate 132300, samplerate 44100, 2 channels
the quotient is 3/2; the code's `round` gives bit depth 2 while the
claim's truncation toward zero gives 1. -/
theorem c9_round_not_trunc :
    initBitDepth (some 132300) 44100 2 = 2
  ∧ specBitDepth (some 132300) 44100 2 = 1
  ∧ initBitDepth (some 132300) 44100 2 ≠ specBitDepth (some 132300) 44100 2 := by
  have hq : ((initBitrate (some 132300) : ℚ)) /
      (((44100 : ℕ) : ℚ) * ((2 : ℕ) : ℚ)) = 3/2 := by
    norm_num [initBitrate]
  constructor
  · rw [initBitDepth, hq]
    norm_num [pyRound]
  constructor
  · rw [specBitDepth, hq]
    norm_num [truncTowardZero]
  · rw [initBitDepth, specBitDepth, hq]
    norm_num [pyRound, truncTowardZero]

/-- C9 (amended): the bit depth computed at open time is the integer
nearest to `bitrate / (samplerate × channels)` (Python `round`, ties to
even) — within 1/2 of the exact quotient — and is 0 whenever the tag
library reports no bitrate. -/
theorem c9_bit_depth_round (mb : Option ℤ) (samplerate channels : ℕ) :
    |(initBitDepth mb samplerate channels : ℚ) -
      (initBitrate mb : ℚ) / ((samplerate : ℚ) * (channels : ℚ))| ≤ 1/2
  ∧ initBitDepth none samplerate channels = 0 := by
  constructor
  · exact pyRound_close _
  · simp [initBitDepth, initBitrate, pyRound]

/-- C1: `play(N)` with `N > 1` on a non-playing, non-paused `Sound` with
cursor 0 (and positive chunk size, `supply = round(samplerate/10) ≥ 1`)
makes the producer loop perform exactly `N` full read-to-exhaustion
passes: the in-loop cursor reset of line 239 executes exactly `N` times
(each time directly after the inner loop has read the decoder dry, by
`innerLoop_spec`/`outerLoop_spec`), and the loop then exits with
`playing = false`, `paused = false` and the cursor and decoder position
at 0. -/
theorem c1_play_n_full_passes (N : ℤ) (s : SState) (hN : 1 < N)
    (hplay : s.playing = false) (hpause : s.paused = false)
    (hcur : s.cur_frame = 0) (hsup : 1 ≤ s.supply) :
    (play N.toNat N s).map SState.resets = some (s.resets + N.toNat)
  ∧ (play N.toNat N s).map SState.playing = some false
  ∧ (play N.toNat N s).map SState.paused = some false
  ∧ (play N.toNat N s).map SState.cur_frame = some 0
  ∧ (play N.toNat N s).map SState.pos = some 0 := by
  have h0 : (0 : ℤ) ≤ N := by omega
  have hNn : ((N.toNat : ℕ) : ℤ) = N := Int.toNat_of_nonneg h0
  have hplay' : ¬s.playing = true := by simp [hplay]
  obtain ⟨t, ht, h1, h2, h3, h4, h5, h6, h7, h8, h9, h10⟩ :=
    outerLoop_spec N.toNat N.toNat
      { s with
        playing := true
        threads := s.threads + 1
        sinkStarted := s.sinkStarted + 1
        pos := s.cur_frame }
      (by omega) le_rfl rfl hpause hsup (by show s.cur_frame ≤ s.frames; omega)
  rw [hNn] at ht
  refine ⟨?_, ?_, ?_, ?_, ?_⟩ <;>
    simp only [play, if_neg hplay', streaming] <;> rw [ht] <;> simp [h1]

/-- Witness for C1: `play(3)` on a fresh `Sound` with 7 frames and chunk
size 2 performs exactly 3 passes (3 in-loop cursor resets) and ends not
playing. -/
theorem c1_play_n_full_passes_witness :
    (play (Int.toNat 3) 3 (mkInit 7 2)).map SState.resets = some 3
  ∧ (play (Int.toNat 3) 3 (mkInit 7 2)).map SState.playing = some false := by
  have h := c1_play_n_full_passes 3 (mkInit 7 2) (by decide) rfl rfl rfl (by decide)
  exact ⟨h.1, h.2.1⟩

/-- C3 counterexample: `play(0)` on a fresh non-playing `Sound` is NOT a
no-op — `Sound.play` spawns the producer thread whenever `playing` is
false, without inspecting `mode`, and `__streaming__` calls
`streamer.start()` unconditionally before testing the loop predicate, so
one thread is spawned and the output sink is started (and then stopped). -/
theorem c3_play_zero_spawns :
    (play 1 0 (mkInit 10 2)).map SState.threads = some 1
  ∧ (play 1 0 (mkInit 10 2)).map SState.sinkStarted = some 1 := by
  constructor <;> rfl

/-- C3 (amended): `play(0)` on a non-playing `Sound` spawns one producer
thread and starts then stops the output sink, but performs no read pass:
nothing is sent, the in-loop reset never executes, and once the thread
finishes the `Sound` is left with `playing = false`, `paused = false` and
cursor 0. -/
theorem c3_play_zero_behaviour (fuel : ℕ) (s : SState)
    (h : s.playing = false) :
    (play fuel 0 s).map SState.threads = some (s.threads + 1)
  ∧ (play fuel 0 s).map SState.sinkStarted = some (s.sinkStarted + 1)
  ∧ (play fuel 0 s).map SState.sinkStopped = some (s.sinkStopped + 1)
  ∧ (play fuel 0 s).map SState.sends = some s.sends
  ∧ (play fuel 0 s).map SState.resets = some s.resets
  ∧ (play fuel 0 s).map SState.playing = some false
  ∧ (play fuel 0 s).map SState.paused = some false
  ∧ (play fuel 0 s).map SState.cur_frame = some 0 := by
  have hplay' : ¬s.playing = true := by simp [h]
  refine ⟨?_, ?_, ?_, ?_, ?_, ?_, ?_, ?_⟩ <;>
    simp [play, if_neg hplay', streaming, outerLoop_zero]

/-- Witness for C3's amended statement on a fresh `Sound` with 5 frames
and chunk size 1. -/
theorem c3_play_zero_behaviour_witness :
    (play 0 0 (mkInit 5 1)).map SState.playing = some false
  ∧ (play 0 0 (mkInit 5 1)).map SState.threads = some 1 := by
  have h := c3_play_zero_behaviour 0 (mkInit 5 1) rfl
  exact ⟨h.2.2.2.2.2.1, h.1⟩

end PlaySoundSimple
